import Mathlib

/-!
Verification development for the CompanionOS backend (`backend/app`).

The Python source is shallowly embedded: SQLite tables become Lean lists of
row structures, the model backend (Ollama) becomes an oracle parameter, JSON
values become the inductive `JVal`, and fallible calls return `Except` /
`Option`.  Random UUIDs become caller-supplied fresh identifiers.  Timestamps
are not modelled; SQLite's insertion order stands for `created_at` order
(`_utc_now` is monotonic per session in the source).
-/

namespace CompanionOS

/-! ### A model of parsed JSON values (what Python's `json.loads` returns) -/

/-- Parsed JSON values.  Python dicts are association lists with unique keys. -/
inductive JVal where
  | jnull
  | jbool (b : Bool)
  | jnum (q : ℚ)
  | jstr (s : String)
  | jarr (xs : List JVal)
  | jobj (fields : List (String × JVal))

/-- Python truthiness (`if x:`) of a parsed JSON value. -/
def pyTruthy : JVal → Bool
  | .jnull => false
  | .jbool b => b
  | .jnum q => if q = 0 then false else true
  | .jstr s => !s.isEmpty
  | .jarr xs => !xs.isEmpty
  | .jobj fs => !fs.isEmpty

/-- Python `dict.get(k, default)` on a parsed JSON object's fields. -/
def dictGet (fs : List (String × JVal)) (k : String) (d : JVal) : JVal :=
  match fs.find? (fun p => p.1 = k) with
  | some p => p.2
  | none => d

mutual
/-- Python `str()` of a parsed JSON value.  The exact rendering of numbers and
containers is approximated (it never decides a claim; only truncated
diagnostic fields flow through it). -/
def pyStr : JVal → String
  | .jnull => "None"
  | .jbool true => "True"
  | .jbool false => "False"
  | .jnum q => toString q
  | .jstr s => s
  | .jarr xs => "[" ++ pyStrSeq xs ++ "]"
  | .jobj fs => "\x7b" ++ pyStrFields fs ++ "\x7d"

/-- Comma-separated rendering of a JSON array's elements. -/
def pyStrSeq : List JVal → String
  | [] => ""
  | [x] => pyStr x
  | x :: y :: xs => pyStr x ++ ", " ++ pyStrSeq (y :: xs)

/-- Comma-separated rendering of a JSON object's fields. -/
def pyStrFields : List (String × JVal) → String
  | [] => ""
  | [(k, v)] => k ++ ": " ++ pyStr v
  | (k, v) :: f :: fs => k ++ ": " ++ pyStr v ++ ", " ++ pyStrFields (f :: fs)
end

/-- Python `float(x)` coercion of a JSON value, `none` when it raises.
Numeric strings (accepted by Python's `float`) are not modelled; theorems
about confidences only quantify over numeric JSON values. -/
def pyFloatNum : JVal → Option ℚ
  | .jnum q => some q
  | .jbool b => some (if b then 1 else 0)
  | _ => none

/-- Coerce into `[0, 1]` (`_clamp01` in `memory_extractor.py`). -/
def clamp01 (q : ℚ) : ℚ := max 0 (min 1 q)

/-- Python `str.strip()` on a character list: drop leading and trailing
whitespace. -/
def pyStripChars (l : List Char) : List Char :=
  ((l.dropWhile Char.isWhitespace).reverse.dropWhile Char.isWhitespace).reverse

/-- Python `str.strip()`. -/
def pyStrip (s : String) : String := String.mk (pyStripChars s.toList)

/-- Python slicing `s[:n]` (by characters). -/
def pyTake (s : String) (n : Nat) : String := String.mk (s.toList.take n)

/-- Python `s.replace("\n", " ")`. -/
def pyReplaceNl (s : String) : String :=
  String.mk (s.toList.map (fun c => if c = '\n' then ' ' else c))

/-! ### Messages (`db.py`: table `messages`, `add_message`, `get_messages`,
`count_messages`).  One session's messages in `created_at` (insertion) order. -/

/-- One row of the `messages` table (session fixed, id/timestamps elided). -/
structure Msg where
  role : String
  content : String
deriving DecidableEq, Repr

/-- Python `l[-n:]` for `n > 0`: the last `n` elements. -/
def lastN (n : Nat) (l : List α) : List α := l.drop (l.length - n)

/-- `get_messages`: `SELECT ... ORDER BY created_at ASC LIMIT ?` returns the
**earliest** `limit` rows of the session. -/
def get_messages (msgs : List Msg) (limit : Nat) : List Msg := msgs.take limit

/-- `count_messages`: `SELECT COUNT(*) FROM messages WHERE session_id = ?`. -/
def count_messages (msgs : List Msg) : Nat := msgs.length

/-- `add_message`: append-only insert of one message row. -/
def add_message (msgs : List Msg) (role content : String) : List Msg :=
  msgs ++ [⟨role, content⟩]

/-! ### Memory items (`db.py`: table `memory_items`, `upsert_memory_item`) -/

/-- One row of the `memory_items` table (`created_at`/`updated_at` elided,
uuid ids become `Nat`). -/
structure MemRow where
  id : Nat
  scope : String
  sessionId : Option String
  key : String
  value : String
  confidence : ℚ
  sourceMessageId : Option Nat
deriving DecidableEq, Repr

/-- The SQL row filter `scope = ? AND key = ? AND (session_id IS ? OR
session_id = ?)`: a null-safe match on the (scope, key, session_id) triple. -/
def memTripleMatches (scope key : String) (sessionId : Option String)
    (r : MemRow) : Bool :=
  r.scope = scope && r.key = key && r.sessionId = sessionId

/-- `upsert_memory_item`: select the first row matching the triple; update it
in place if found, else insert a fresh row (`freshId` stands for `uuid4()`).
Returns the new table and the row id (`mem_id`). -/
def upsert_memory_item (db : List MemRow) (scope key value : String)
    (confidence : ℚ) (sessionId : Option String) (sourceMessageId : Option Nat)
    (freshId : Nat) : List MemRow × Nat :=
  match db.find? (memTripleMatches scope key sessionId) with
  | some existing =>
      (db.map (fun r =>
        if r.id = existing.id then
          { r with value := value, confidence := confidence,
                   sourceMessageId := sourceMessageId }
        else r), existing.id)
  | none =>
      (db ++ [⟨freshId, scope, sessionId, key, value, confidence,
               sourceMessageId⟩], freshId)

/-- The `memory_items` table invariants: `id` is a primary key, and at most
one live row exists per (scope, session_id, key) triple. -/
def MemInv (db : List MemRow) : Prop :=
  db.Pairwise (fun a b => a.id ≠ b.id) ∧
  db.Pairwise (fun a b =>
    ¬ (a.scope = b.scope ∧ a.key = b.key ∧ a.sessionId = b.sessionId))

/-! ### Session summaries and the post-chat pipeline (`pipeline.py`,
`db.py: upsert_session_summary`) -/

/-- One row of the `session_summaries` table (keyed by session, so at most an
`Option` per session; `updated_at` elided). -/
structure SummaryRow where
  summary : String
  open_loops : List String
deriving DecidableEq, Repr

/-- A memory candidate accepted by `validate_mx1_output`. -/
structure AcceptedItem where
  scope : String
  key : String
  value : String
  confidence : ℚ
deriving DecidableEq, Repr

/-- The `summary_patch` produced by `validate_mx1_output`. -/
structure SummaryPatch where
  summary : String
  open_loops : List String
deriving DecidableEq, Repr

/-- The debug record `run_post_chat_pipeline` returns. -/
structure PipelineDebug where
  msg_count : Option Nat
  should_update_summary : Option Bool
  memory_items_upserted : Nat
  summary_updated : Bool
  summary_len : Nat
  errors : List String
deriving DecidableEq, Repr

/-- `MX1_RECENT_MESSAGES` (default). -/
def MX1_RECENT_MESSAGES : Nat := 10

/-- `SUMMARY_CADENCE` (default). -/
def SUMMARY_CADENCE : Nat := 6

/-- `_fallback_summary_from_recent`: deterministic fallback text built from
the last few messages. -/
def _fallback_summary_from_recent (recent : List Msg) (msgCount : Nat) :
    String :=
  if recent.isEmpty then
    "Session with " ++ toString msgCount ++ " messages."
  else
    let tail := lastN 4 recent
    let snippets := tail.filterMap (fun m =>
      let content := pyReplaceNl (pyStrip m.content)
      if content = "" then none else some (m.role ++ ": " ++ pyTake content 80))
    let joined := String.intercalate " | " (snippets.take 3)
    "Session with " ++ toString msgCount ++ " messages. Recent: " ++ joined

/-- The pipeline's per-item upsert loop (step 5 of `run_post_chat_pipeline`):
session-scoped items carry the session id, global items carry null.  `ids`
supplies the fresh uuid for the `k`-th upsert. -/
def upsertItemsGo (sessionId : String) (ids : Nat → Nat) :
    List MemRow → List AcceptedItem → Nat → List MemRow
  | mem, [], _ => mem
  | mem, it :: rest, k =>
      upsertItemsGo sessionId ids
        (upsert_memory_item mem it.scope it.key it.value it.confidence
          (if it.scope = "session" then some sessionId else none) none
          (ids k)).1
        rest (k + 1)

/-- The extraction context `run_post_chat_pipeline` builds: the last
`MX1_RECENT_MESSAGES` of `get_messages(session_id, limit=50)`. -/
def pipeline_recent_context (msgs : List Msg) : List Msg :=
  lastN MX1_RECENT_MESSAGES (get_messages msgs 50)

/-- One row of the `alerts` table (uuid ids become `Nat`, timestamps elided). -/
structure Alert where
  id : Nat
  scope : String
  sessionId : Option String
  title : String
  body : String
  due_at : String
  status : String
  confidence : ℚ
deriving DecidableEq, Repr

/-- The session-visible state the turn pipeline touches: the four tables of
`db.py` restricted to one session's view. -/
structure DB where
  messages : List Msg
  memory : List MemRow
  summary : Option SummaryRow
  alerts : List Alert

/-- `run_post_chat_pipeline`: MX1 memory extraction and cadence-gated summary
refresh.  The model-backend call chain `extract_mx1` (steps 2-4) is the
oracle `mx1`: `.ok` carries `(accepted_items, summary_patch, raw)` and
`.error` stands for any exception raised inside the `try` block; persistence
operations follow the storage contract and do not fail.  Mirrors the
`try/except` structure: debug fields set before the oracle call survive into
the except branch, which writes the emergency summary exactly on cadence. -/
def run_post_chat_pipeline (db : DB) (sessionId : String)
    (mx1 : Except String (List AcceptedItem × SummaryPatch × String))
    (ids : Nat → Nat) : DB × PipelineDebug :=
  let msgs := get_messages db.messages 50
  let recent := lastN MX1_RECENT_MESSAGES msgs
  let msg_count := count_messages db.messages
  let should := msg_count % SUMMARY_CADENCE = 0
  match mx1 with
  | .error e =>
      let e1 := "pipeline_error: " ++ e
      if msg_count % SUMMARY_CADENCE = 0 then
        let emergency := "Session with " ++ toString msg_count ++
          " messages. Summary temporarily unavailable."
        ({ db with summary := some ⟨emergency, []⟩ },
         { msg_count := some msg_count, should_update_summary := some true,
           memory_items_upserted := 0, summary_updated := true,
           summary_len := emergency.length,
           errors := [e1, "MX1 failed at cadence; wrote emergency summary."] })
      else
        (db,
         { msg_count := some msg_count,
           should_update_summary := some (decide should),
           memory_items_upserted := 0, summary_updated := false,
           summary_len := 0, errors := [e1] })
  | .ok (items, patch, _raw) =>
      let mem1 := upsertItemsGo sessionId ids db.memory items 0
      let upserted := items.length
      if should then
        let summary_text := pyStrip patch.summary
        if summary_text ≠ "" then
          ({ db with memory := mem1,
                     summary := some ⟨summary_text, patch.open_loops⟩ },
           { msg_count := some msg_count, should_update_summary := some true,
             memory_items_upserted := upserted, summary_updated := true,
             summary_len := summary_text.length, errors := [] })
        else
          let fb := _fallback_summary_from_recent recent msg_count
          ({ db with memory := mem1,
                     summary := some ⟨fb, patch.open_loops⟩ },
           { msg_count := some msg_count, should_update_summary := some true,
             memory_items_upserted := upserted, summary_updated := true,
             summary_len := fb.length,
             errors :=
               ["MX1 returned empty summary at cadence; used fallback summary."] })
      else
        ({ db with memory := mem1 },
         { msg_count := some msg_count, should_update_summary := some false,
           memory_items_upserted := upserted, summary_updated := false,
           summary_len := 0, errors := [] })

/-! ### MX1 output validation (`memory_extractor.py: validate_mx1_output`) -/

/-- One character of the key pattern `[a-z0-9_]`. -/
def isMx1KeyChar (c : Char) : Bool :=
  ('a' ≤ c && c ≤ 'z') || ('0' ≤ c && c ≤ '9') || c = '_'

/-- Per-candidate validation (loop body of `validate_mx1_output`): `none`
means the candidate is skipped (`continue`). -/
def acceptItem (threshold : ℚ) (allowScopes : List String) (it : JVal) :
    Option AcceptedItem :=
  match it with
  | .jobj fields =>
      let scope := dictGet fields "scope" .jnull
      let key := dictGet fields "key" .jnull
      let value := dictGet fields "value" .jnull
      let conf := dictGet fields "confidence" (.jnum 0)
      match scope, key, value with
      | .jstr sc, .jstr k, .jstr v =>
          if sc ∈ allowScopes then
            if 1 ≤ k.length ∧ k.length ≤ 64 then
              if k.toList.all isMx1KeyChar then
                if 1 ≤ v.length ∧ v.length ≤ 400 then
                  let conf_f :=
                    match pyFloatNum conf with
                    | some q => clamp01 q
                    | none => 0
                  if conf_f < threshold then none
                  else some ⟨sc, k, pyStrip v, conf_f⟩
                else none
              else none
            else none
          else none
      | _, _, _ => none
  | _ => none

/-- `validate_mx1_output` over the parsed extraction object's fields: at most
5 candidates are considered, each validated by `acceptItem`; the summary
patch is normalised (strings only, open loops trimmed, capped to 10). -/
def validate_mx1_output (data : List (String × JVal)) (threshold : ℚ)
    (allowScopes : List String) : List AcceptedItem × SummaryPatch :=
  let items_in :=
    match dictGet data "items" (.jarr []) with
    | .jarr xs => xs
    | _ => []
  let accepted := (items_in.take 5).filterMap (acceptItem threshold allowScopes)
  let sp :=
    match dictGet data "summary_patch" (.jobj []) with
    | .jobj fs => fs
    | _ => []
  let summary :=
    match dictGet sp "summary" (.jstr "") with
    | .jstr s => s
    | _ => ""
  let open_loops :=
    match dictGet sp "open_loops" (.jarr []) with
    | .jarr xs => xs
    | _ => []
  let open_loops_norm := (open_loops.take 10).filterMap (fun x =>
    match x with
    | .jstr s => if pyStrip s = "" then none else some (pyStrip s)
    | _ => none)
  (accepted, ⟨pyStrip summary, open_loops_norm⟩)

/-! ### Judge gate (`agents/Judge/judge_agent.py: run_judge`) -/

/-- Outcome of the backend call `_ollama_chat` inside `run_judge`'s `try`:
`err` stands for any raised exception (timeout, transport error, bad HTTP
status) with its `str(e)`, `ok` for the returned response text. -/
inductive BackendOutcome where
  | err (msg : String)
  | ok (text : String)

/-- The dict `run_judge` returns.  Python `None` is `JVal.jnull`. -/
structure JudgeResult where
  verdict : String
  feedback : JVal
  rewritten_response : JVal
  reason : String
  risk_tags : List String

/-- Python `str.find(c)`: index of the first occurrence, `-1` if absent. -/
def pyFind (c : Char) : List Char → Int
  | [] => -1
  | x :: xs =>
      if x = c then 0
      else
        let r := pyFind c xs
        if r = -1 then -1 else r + 1

/-- Python `str.rfind(c)`: index of the last occurrence, `-1` if absent. -/
def pyRFind (c : Char) (s : List Char) : Int :=
  let r := pyFind c s.reverse
  if r = -1 then -1 else (s.length : Int) - 1 - r

/-- Lines 109-115 of `run_judge`: strip the raw reply, locate the first
opening brace and the last closing brace, and slice the candidate JSON span;
`none` when the `ValueError` is raised. -/
def judgeSpan (raw : String) : Option String :=
  let cs := pyStripChars raw.toList
  let start := pyFind '{' cs
  let stop := pyRFind '}' cs
  if start = -1 ∨ stop = -1 ∨ stop ≤ start then none
  else some (String.mk ((cs.drop start.toNat).take (stop.toNat + 1 - start.toNat)))

/-- Message of the `AttributeError` raised by `obj.get` when `json.loads`
returned a non-dict (exact Python wording approximated). -/
def pyAttrErr (v : JVal) : String :=
  let tn :=
    match v with
    | .jarr _ => "list"
    | .jstr _ => "str"
    | .jnum _ => "number"
    | .jbool _ => "bool"
    | .jnull => "NoneType"
    | .jobj _ => "dict"
  tn ++ " object has no attribute get"

/-- The `except` fallback of `run_judge`: never block the user. -/
def judgeFallbackResult (e : String) : JudgeResult :=
  { verdict := "PASS", feedback := .jnull, rewritten_response := .jnull,
    reason := "judge_failed:" ++ e, risk_tags := ["judge_error"] }

/-- `run_judge`.  `parseJson` is the oracle for Python's `json.loads` on the
sliced span (`.error` = `JSONDecodeError` with its message).  Prompt loading
and formatting (which happen before the `try` block) are elided: the oracles
only describe the backend interaction inside the `try`. -/
def run_judge (judgeEnabled : Bool) (backend : BackendOutcome)
    (parseJson : String → Except String JVal) : JudgeResult :=
  if !judgeEnabled then
    { verdict := "PASS", feedback := .jnull, rewritten_response := .jnull,
      reason := "judge_disabled", risk_tags := [] }
  else
    match backend with
    | .err e => judgeFallbackResult e
    | .ok raw =>
        match judgeSpan raw with
        | none =>
            judgeFallbackResult
              ("Judge did not return JSON: " ++ pyTake (pyStrip raw) 200)
        | some span =>
            match parseJson span with
            | .error e => judgeFallbackResult e
            | .ok (.jobj fields) =>
                let verdict0 := dictGet fields "verdict" (.jstr "PASS")
                let verdict1 : String :=
                  match verdict0 with
                  | .jstr s =>
                      if s = "PASS" || s = "REWRITE" || s = "BLOCK" then s
                      else "PASS"
                  | _ => "PASS"
                let rewritten0 := dictGet fields "rewritten_response" .jnull
                let feedback0 := dictGet fields "feedback" (.jstr "")
                let vrf :=
                  if verdict1 = "PASS" then ("PASS", JVal.jnull, JVal.jnull)
                  else if verdict1 = "REWRITE" && !pyTruthy rewritten0 &&
                      !pyTruthy feedback0 then
                    ("PASS", rewritten0, feedback0)
                  else (verdict1, rewritten0, feedback0)
                let risk_tags :=
                  match dictGet fields "risk_tags" (.jarr []) with
                  | .jarr xs => (xs.take 10).map (fun t => pyTake (pyStr t) 40)
                  | _ => []
                { verdict := vrf.1, feedback := vrf.2.2,
                  rewritten_response := vrf.2.1,
                  reason := pyTake (pyStr (dictGet fields "reason" (.jstr ""))) 200,
                  risk_tags := risk_tags }
            | .ok v => judgeFallbackResult (pyAttrErr v)

/-- The parsed object's `verdict` field is not one of the three legal
verdict strings (schema violation). -/
def invalidVerdictField (fields : List (String × JVal)) : Prop :=
  match dictGet fields "verdict" (.jstr "PASS") with
  | .jstr s => ¬ (s = "PASS" ∨ s = "REWRITE" ∨ s = "BLOCK")
  | _ => True

/-- The failure classes that reach `run_judge`'s `except` fallback: a
transport error or timeout, a reply with no brace-delimited span, a span
`json.loads` rejects, or a span parsing to a non-object. -/
def judgeHardFailure : BackendOutcome → (String → Except String JVal) → Prop
  | .err _, _ => True
  | .ok raw, p =>
      judgeSpan raw = none ∨
      (∃ span e, judgeSpan raw = some span ∧ p span = .error e) ∨
      (∃ span v, judgeSpan raw = some span ∧ p span = .ok v ∧
        ∀ fs, v ≠ JVal.jobj fs)

/-- All failure classes of claim C2: the hard failures plus a parsed object
whose `verdict` field violates the schema. -/
def judgeFailureCase (b : BackendOutcome)
    (p : String → Except String JVal) : Prop :=
  judgeHardFailure b p ∨
  (∃ raw span fields, b = .ok raw ∧ judgeSpan raw = some span ∧
    p span = .ok (.jobj fields) ∧ invalidVerdictField fields)

/-! ### Turn orchestrator retry loop (`main.py: chat_send_api`, lines 362-416) -/

/-- What the loop reads from `run_judge`'s dict.  `run_judge` guarantees the
verdict is a string and feedback / rewritten_response are strings or `None`
(modelled `Option String`). -/
structure JudgeOut where
  verdict : String
  feedback : Option String
  rewritten_response : Option String

/-- Python truthiness of a string-or-None value. -/
def strTruthy : Option String → Bool
  | none => false
  | some s => !s.isEmpty

/-- Python `x or d` for a string-or-None `x` and string default `d`. -/
def pyOrD : Option String → String → String
  | some s, d => if s.isEmpty then d else s
  | none, d => d

/-- The loop's mutable locals (`final_text`, `verdict`, the last
`assistant_draft`), plus a count of draft-generation backend calls. -/
structure LoopState where
  final_text : String
  verdict : String
  draftCalls : Nat
  lastDraft : String
deriving DecidableEq, Repr

/-- `max_retries` in `chat_send_api`. -/
def max_retries : Nat := 3

/-- Body of `for attempt in range(max_retries)`.  `drafts n` is the draft the
backend returns on attempt `n` (a failed generation call aborts the whole
turn with an HTTP 502 and performs no further draft calls, so total
oracles over-approximate the call count); `judge n` is the judge outcome for
that draft.  Fuel starts at `max_retries` and `attempt` at 0. -/
def chatLoopGo (drafts : Nat → String) (judge : Nat → JudgeOut) :
    Nat → Nat → LoopState → LoopState
  | 0, _, st => st
  | fuel + 1, attempt, st =>
      let d := drafts attempt
      let j := judge attempt
      let st1 := { st with draftCalls := st.draftCalls + 1, lastDraft := d,
                           verdict := j.verdict }
      if j.verdict = "PASS" then { st1 with final_text := d }
      else if j.verdict = "REWRITE" then
        if strTruthy j.feedback ∧ attempt < max_retries - 1 then
          chatLoopGo drafts judge fuel (attempt + 1) st1
        else { st1 with final_text := pyOrD j.rewritten_response d }
      else if j.verdict = "BLOCK" then
        { st1 with final_text := pyOrD j.rewritten_response "I cannot answer that." }
      else chatLoopGo drafts judge fuel (attempt + 1) st1

/-- The generate/judge/retry loop of `chat_send_api` including the two
post-loop fixups: empty `final_text` falls back to the last draft, and a
resolved `REWRITE` is normalised to `PASS`. -/
def chat_send_loop (drafts : Nat → String) (judge : Nat → JudgeOut) :
    LoopState :=
  let st := chatLoopGo drafts judge max_retries 0
    { final_text := "", verdict := "PASS", draftCalls := 0, lastDraft := "" }
  let ft := if st.final_text = "" then st.lastDraft else st.final_text
  let v := if st.verdict = "REWRITE" ∧ ¬ ft = "" then "PASS" else st.verdict
  { st with final_text := ft, verdict := v }

/-- A judge oracle that answers `REWRITE` with feedback on every attempt. -/
def persistentRewrite : Nat → JudgeOut :=
  fun _ => ⟨"REWRITE", some "fix it", none⟩

/-! ### Alerts (`db.py`: `create_alert`, `update_alert_status`;
`tools/alerts/alert_service.py`) -/

/-- `create_alert`: insert a row with `status = 'active'`. -/
def create_alert (db : List Alert) (scope : String) (title body due_at : String)
    (confidence : ℚ) (sessionId : Option String) (freshId : Nat) :
    List Alert × Nat :=
  (db ++ [⟨freshId, scope, sessionId, title, body, due_at, "active",
           confidence⟩], freshId)

/-- `update_alert_status`: validate the status literal (else `ValueError`),
then `UPDATE alerts SET status = ? WHERE id = ?` with no guard on the
current status.  Returns the new table and whether a row was hit. -/
def update_alert_status (db : List Alert) (alertId : Nat) (status : String) :
    Except String (List Alert × Bool) :=
  if status = "active" ∨ status = "done" ∨ status = "cancelled" then
    .ok (db.map (fun a => if a.id = alertId then { a with status := status }
                          else a),
         db.any (fun a => a.id = alertId))
  else .error "Invalid status"

/-- `mark_alert_done` (`alert_service.py`). -/
def mark_alert_done (db : List Alert) (alertId : Nat) :
    Except String (List Alert × Bool) :=
  update_alert_status db alertId "done"

/-- `mark_alert_cancelled` (`alert_service.py`). -/
def mark_alert_cancelled (db : List Alert) (alertId : Nat) :
    Except String (List Alert × Bool) :=
  update_alert_status db alertId "cancelled"

/-- The status-update operations the system exposes (the `/alerts/{id}/done`
and `/alerts/{id}/cancel` endpoints in `main.py`; no caller ever passes
`'active'` to `update_alert_status`). -/
inductive AlertOp where
  | markDone (alertId : Nat)
  | markCancelled (alertId : Nat)

/-- Apply one exposed status-update operation (both use valid status
literals, so `update_alert_status` never raises here). -/
def applyAlertOp (db : List Alert) : AlertOp → List Alert
  | .markDone alertId =>
      match mark_alert_done db alertId with
      | .ok (db1, _) => db1
      | .error _ => db
  | .markCancelled alertId =>
      match mark_alert_cancelled db alertId with
      | .ok (db1, _) => db1
      | .error _ => db

/-- Apply a sequence of exposed status-update operations in order. -/
def applyAlertOps (db : List Alert) : List AlertOp → List Alert
  | [] => db
  | op :: ops => applyAlertOps (applyAlertOp db op) ops

/-- The status of the alert row with the given id. -/
def alertStatus (db : List Alert) (alertId : Nat) : Option String :=
  (db.find? (fun a => a.id = alertId)).map (fun a => a.status)

/-- The transitions claim C7 says are the only ones ever performed. -/
def claimedAlertTransitions : List (String × String) :=
  [("active", "done"), ("active", "cancelled")]

/-! ### Tool framework (`tools/base.py`, `tools/runner.py`,
`tools/bootstrap.py`, `tools/alerts/tool.py`) -/

/-- Persona config fields the turn pipeline reads (prompt-shaping only). -/
structure Persona where
  name : String
  description : String
  memory_enabled : Bool
  memory_scope : String

/-- `ToolContext` (`tools/base.py`). -/
structure ToolCtx where
  session_id : String
  persona : Persona
  memory_items : List MemRow
  session_summary : Option SummaryRow
  recent_messages : List Msg
  user_message : String
  assistant_final : String
  ollama_base_url : String
  ollama_model : String

/-- A tool event: the dicts the runner and plugins produce. -/
abbrev Event := List (String × JVal)

/-- A registered tool plugin.  `run` may update the store (plugins persist
side effects through `db.py`) and either return events or raise; partial
writes made before a raise persist, so `run` returns the updated store in
both cases. -/
structure Tool where
  id : String
  name : String
  description : String
  run : ToolCtx → DB → DB × Except String (List Event)

/-- `enabled_map.get(tool.id, True)` in `run_tools`. -/
def lookupEnabled (em : List (String × Bool)) (tid : String) : Bool :=
  match em.find? (fun p => p.1 = tid) with
  | some p => p.2
  | none => true

/-- The `skipped` event `run_tools` emits for a disabled tool. -/
def skippedEvent (tid : String) : Event :=
  [("tool_id", .jstr tid), ("event", .jstr "skipped"),
   ("title", .jstr "Tool disabled"),
   ("message", .jstr (tid ++ " is disabled for this session.")),
   ("data", .jobj [])]

/-- The `error` event `run_tools` emits when a tool raises. -/
def errorEvent (tid msg : String) : Event :=
  [("tool_id", .jstr tid), ("event", .jstr "error"),
   ("title", .jstr "Tool failed"), ("message", .jstr msg),
   ("data", .jobj [])]

/-- `run_tools` (`tools/runner.py`): iterate the registry in order; a
disabled tool yields one `skipped` event and is not invoked; an enabled
tool's events are appended, and a raising tool yields one `error` event
without stopping the iteration. -/
def run_tools (tools : List Tool) (ctx : ToolCtx) (em : List (String × Bool))
    (db : DB) : List Event × DB :=
  match tools with
  | [] => ([], db)
  | t :: rest =>
      if lookupEnabled em t.id then
        match t.run ctx db with
        | (db1, .ok evs) =>
            let r := run_tools rest ctx em db1
            (evs ++ r.1, r.2)
        | (db1, .error m) =>
            let r := run_tools rest ctx em db1
            (errorEvent t.id m :: r.1, r.2)
      else
        let r := run_tools rest ctx em db
        (skippedEvent t.id :: r.1, r.2)

/-- One alert candidate as validated by `extract_alerts` (non-empty title
and due timestamp, `repeat_rule` normalised; `repeat_rule` is not persisted
by `execute_alert_creation` and is elided). -/
structure AlertCand where
  title : String
  body : String
  due_at : String
  confidence : ℚ

/-- Loop body of `execute_alert_creation`: strip and validate each candidate,
clamp confidence, insert an active alert row, and collect one
`alert_created` event per created row. -/
def execAlertGo (sessionId : Option String) (scope : String) (ids : Nat → Nat) :
    List Alert → List AlertCand → Nat → List Alert × List Event
  | db, [], _ => (db, [])
  | db, c :: rest, k =>
      let title := pyStrip c.title
      let body := pyStrip c.body
      let due := pyStrip c.due_at
      if title = "" ∨ due = "" then execAlertGo sessionId scope ids db rest (k + 1)
      else
        let conf := max 0 (min 1 c.confidence)
        let r := create_alert db scope title body due conf
          (if scope = "session" then sessionId else none) (ids k)
        let ev : Event :=
          [("type", .jstr "alert_created"), ("alert_id", .jstr (toString r.2)),
           ("title", .jstr title), ("due_at", .jstr due)]
        let rest1 := execAlertGo sessionId scope ids r.1 rest (k + 1)
        (rest1.1, ev :: rest1.2)

/-- `execute_alert_creation` (`alert_service.py`): cap at 2 per turn, then
run the per-candidate loop. -/
def execute_alert_creation (db : List Alert) (cands : List AlertCand)
    (sessionId : Option String) (scope : String) (ids : Nat → Nat) :
    List Alert × List Event :=
  execAlertGo sessionId scope ids db (cands.take 2) 0

/-- `AlertsTool.run` (`tools/alerts/tool.py`): `cands` is the oracle for
`extract_alerts` (`.ok` = its validated `create` list, which is `[]` on any
swallowed extraction failure; `.error` = an exception escaping `run`, e.g. a
missing prompt file).  Creates alert rows and returns one aggregated
`alert_created` event, or no event when nothing was created. -/
def alertsToolRun (cands : Except String (List AlertCand)) (ids : Nat → Nat)
    (ctx : ToolCtx) (db : DB) : DB × Except String (List Event) :=
  match cands with
  | .error e => (db, .error e)
  | .ok list =>
      if list.isEmpty then (db, .ok [])
      else
        let r := execute_alert_creation db.alerts list (some ctx.session_id)
          "session" ids
        if r.2.isEmpty then ({ db with alerts := r.1 }, .ok [])
        else
          ({ db with alerts := r.1 },
           .ok [[("type", .jstr "alert_created"),
                 ("count", .jnum (r.2.length : ℚ)),
                 ("items", .jarr (r.2.map .jobj))]])

/-- The `AlertsTool` plugin instance (description text abridged). -/
def AlertsTool (cands : Except String (List AlertCand)) (ids : Nat → Nat) :
    Tool :=
  { id := "alerts", name := "Alerts",
    description := "WORKING alert/reminder system.",
    run := alertsToolRun cands ids }

/-- `build_tools_registry` (`tools/bootstrap.py`): the alerts tool is the
only registered plugin. -/
def build_tools_registry (cands : Except String (List AlertCand))
    (ids : Nat → Nat) : List Tool :=
  [AlertsTool cands ids]

/-! ### The turn endpoint (`main.py: chat_send_api`), persistence effects -/

/-- `chat_send_api` for a successfully generated turn: persist the user
message, run the generate/judge loop, persist the final assistant reply, run
the post-chat pipeline, then run the tools.  Oracles: `drafts`/`judge` for
the loop, `mx1` for extraction, `alertCands` for the alerts tool, and
uuid suppliers for the two tables that insert rows.  Returns the final
store, the reply text and the normalised verdict. -/
def chat_send_api (db : DB) (sessionId : String) (persona : Persona)
    (userMsg : String) (drafts : Nat → String) (judge : Nat → JudgeOut)
    (mx1 : Except String (List AcceptedItem × SummaryPatch × String))
    (memIds : Nat → Nat) (alertCands : Except String (List AlertCand))
    (alertIds : Nat → Nat) (enabledMap : List (String × Bool)) :
    DB × String × String :=
  let db1 := { db with messages := add_message db.messages "user" userMsg }
  let lp := chat_send_loop drafts judge
  let db2 := { db1 with
    messages := add_message db1.messages "assistant" lp.final_text }
  let pr := run_post_chat_pipeline db2 sessionId mx1 memIds
  let db3 := pr.1
  let ctx : ToolCtx :=
    { session_id := sessionId, persona := persona, memory_items := db.memory,
      session_summary := db3.summary,
      recent_messages := lastN 10 (get_messages db3.messages 50),
      user_message := userMsg, assistant_final := lp.final_text,
      ollama_base_url := "", ollama_model := "" }
  let tr := run_tools (build_tools_registry alertCands alertIds) ctx
    enabledMap db3
  (tr.2, lp.final_text, lp.verdict)

/-! ### Concrete fixtures used by statements and witnesses -/

/-- A candidate item as MX1 emits it: an object with scope/key/value and a
numeric confidence. -/
def mx1Item (sc k v : String) (q : ℚ) : JVal :=
  .jobj [("scope", .jstr sc), ("key", .jstr k), ("value", .jstr v),
         ("confidence", .jnum q)]

/-- Two successive upserts on the same (scope, session_id, key) triple. -/
def upsertTwice (db : List MemRow) (scope key v1 v2 : String) (c1 c2 : ℚ)
    (sessionId : Option String) (id1 id2 : Nat) : List MemRow :=
  (upsert_memory_item
    (upsert_memory_item db scope key v1 c1 sessionId none id1).1
    scope key v2 c2 sessionId none id2).1

/-- An empty store. -/
def emptyDB : DB := ⟨[], [], none, []⟩

/-- A store holding one persisted message (an off-cadence message count). -/
def oneMsgDB : DB := ⟨[⟨"user", "hi"⟩], [], none, []⟩

/-- A minimal persona fixture. -/
def testPersona : Persona := ⟨"Mentor", "supportive mentor", false, "session"⟩

/-- A minimal tool context fixture. -/
def testCtx : ToolCtx := ⟨"s1", testPersona, [], none, [], "u", "a", "", ""⟩

/-- A tool whose `run` raises. -/
def errTool : Tool := ⟨"terr", "Err", "", fun _ db => (db, .error "boom")⟩

/-- A tool whose `run` returns one event. -/
def okTool : Tool := ⟨"tok", "Ok", "", fun _ db => (db, .ok [[("k", .jstr "v")]])⟩

/-- A `json.loads` oracle that always rejects its input. -/
def parseFailOracle : String → Except String JVal :=
  fun _ => .error "Expecting value"

/-- A session with 51 persisted messages. -/
def c5msgs : List Msg :=
  (List.range 51).map (fun i => ⟨"user", "m" ++ toString i⟩)

/-- One freshly created alert. -/
def c7db0 : List Alert :=
  (create_alert [] "session" "t" "b" "2026-01-01T00:00:00" 1 (some "s") 0).1

/-- The alert after the done endpoint. -/
def c7db1 : List Alert := applyAlertOp c7db0 (.markDone 0)

/-- The alert after the done endpoint and then the cancel endpoint. -/
def c7db2 : List Alert := applyAlertOp c7db1 (.markCancelled 0)

/-- The rational 0.79 (given in lowest terms so that it computes). -/
def conf079 : ℚ := ⟨79, 100, by norm_num, by norm_num⟩

/-- The rational 0.80 = 4/5. -/
def conf080 : ℚ := ⟨4, 5, by norm_num, by norm_num⟩

/-- The rational 0.9. -/
def conf090 : ℚ := ⟨9, 10, by norm_num, by norm_num⟩

/-- The default `MX1_CONFIDENCE_THRESHOLD`, 0.8. -/
def mx1Threshold : ℚ := ⟨4, 5, by norm_num, by norm_num⟩

/-- An extraction object with six valid candidates, all of confidence 0.9. -/
def c8SixItems : List (String × JVal) :=
  [("items", .jarr
    [mx1Item "session" "k0" "v" conf090, mx1Item "session" "k1" "v" conf090,
     mx1Item "session" "k2" "v" conf090, mx1Item "session" "k3" "v" conf090,
     mx1Item "session" "k4" "v" conf090, mx1Item "session" "k5" "v" conf090])]

/-! ## Theorems -/

/-! ### Helper lemmas -/

theorem chatLoopGo_draftCalls_le (drafts : Nat → String)
    (judge : Nat → JudgeOut) :
    ∀ (fuel attempt : Nat) (st : LoopState),
      (chatLoopGo drafts judge fuel attempt st).draftCalls ≤
        st.draftCalls + fuel := by
  intro fuel
  induction fuel with
  | zero => intro attempt st; simp [chatLoopGo]
  | succ n ih =>
      intro attempt st
      simp only [chatLoopGo]
      split
      · simp
      · split
        · split
          · exact le_trans (ih (attempt + 1) _) (by simp; omega)
          · simp
        · split
          · simp
          · exact le_trans (ih (attempt + 1) _) (by simp; omega)

theorem run_tools_append (xs ys : List Tool) (ctx : ToolCtx)
    (em : List (String × Bool)) (db : DB) :
    run_tools (xs ++ ys) ctx em db =
      ((run_tools xs ctx em db).1 ++
        (run_tools ys ctx em (run_tools xs ctx em db).2).1,
       (run_tools ys ctx em (run_tools xs ctx em db).2).2) := by
  induction xs generalizing db with
  | nil => simp [run_tools]
  | cons t rest ih =>
      simp only [List.cons_append, run_tools]
      split
      · rcases h : t.run ctx db with ⟨db1, r⟩
        cases r <;> simp [ih]
      · simp [ih]

theorem find?_map_setStatus (db : List Alert) (tid aid : Nat) (s : String) :
    List.find? (fun x => x.id = aid)
        (db.map (fun a => if a.id = tid then { a with status := s } else a)) =
      Option.map (fun a => if a.id = tid then { a with status := s } else a)
        (List.find? (fun x => x.id = aid) db) := by
  induction db with
  | nil => rfl
  | cons a rest ih =>
      have hid :
          (if a.id = tid then { a with status := s } else a).id = a.id := by
        by_cases hat : a.id = tid <;> simp [hat]
      simp only [List.map_cons, List.find?_cons, hid]
      cases h : decide (a.id = aid) with
      | false => simpa using ih
      | true => simp

theorem alertStatus_map_setStatus (db : List Alert) (tid aid : Nat)
    (s : String) :
    alertStatus
        (db.map (fun a => if a.id = tid then { a with status := s } else a))
        aid = alertStatus db aid ∨
    alertStatus
        (db.map (fun a => if a.id = tid then { a with status := s } else a))
        aid = some s := by
  unfold alertStatus
  rw [find?_map_setStatus]
  cases hr : List.find? (fun x => decide (x.id = aid)) db with
  | none => left; rfl
  | some r =>
      by_cases hat : r.id = tid
      · right; simp [hat]
      · left; simp [hat]

theorem alertStatus_applyAlertOp (db : List Alert) (op : AlertOp) (aid : Nat) :
    alertStatus (applyAlertOp db op) aid = alertStatus db aid ∨
    alertStatus (applyAlertOp db op) aid = some "done" ∨
    alertStatus (applyAlertOp db op) aid = some "cancelled" := by
  cases op with
  | markDone tid =>
      have h := alertStatus_map_setStatus db tid aid "done"
      rcases h with h | h
      · left
        simpa [applyAlertOp, mark_alert_done, update_alert_status] using h
      · right; left
        simpa [applyAlertOp, mark_alert_done, update_alert_status] using h
  | markCancelled tid =>
      have h := alertStatus_map_setStatus db tid aid "cancelled"
      rcases h with h | h
      · left
        simpa [applyAlertOp, mark_alert_cancelled, update_alert_status] using h
      · right; right
        simpa [applyAlertOp, mark_alert_cancelled, update_alert_status] using h

/-! ### Claim theorems -/

/-- C1: for every sequence of judge outcomes (and draft outputs), the
generate/verify loop of `chat_send_api` performs at most 3 draft-generation
backend calls per turn; under persistent REWRITE-with-feedback verdicts it
performs exactly 3, never more. -/
theorem C1_at_most_three_draft_attempts :
    (∀ (drafts : Nat → String) (judge : Nat → JudgeOut),
      (chat_send_loop drafts judge).draftCalls ≤ max_retries) ∧
    (chat_send_loop (fun _ => "draft") persistentRewrite).draftCalls =
      max_retries := by
  constructor
  · intro drafts judge
    have h := chatLoopGo_draftCalls_le drafts judge max_retries 0
      { final_text := "", verdict := "PASS", draftCalls := 0, lastDraft := "" }
    simpa [chat_send_loop] using h
  · rfl

/-- C6: a registered, enabled tool whose `run` raises contributes exactly one
`error` event carrying its id and the exception message, in registry order,
and every other registered tool still runs exactly as it would. -/
theorem C6_error_event_isolation (pre post : List Tool) (t : Tool)
    (ctx : ToolCtx) (em : List (String × Bool)) (db dbT : DB) (m : String)
    (hen : lookupEnabled em t.id = true)
    (hrun : t.run ctx (run_tools pre ctx em db).2 = (dbT, .error m)) :
    run_tools (pre ++ t :: post) ctx em db =
      ((run_tools pre ctx em db).1 ++
        errorEvent t.id m :: (run_tools post ctx em dbT).1,
       (run_tools post ctx em dbT).2) := by
  rw [run_tools_append]
  simp [run_tools, hen, hrun]

/-- Witness for C6 at a two-tool registry whose first tool raises: the run
yields the error event for the raising tool followed by the other tool's
event. -/
theorem C6_error_event_isolation_witness :
    run_tools [errTool, okTool] testCtx [] emptyDB =
      ([errorEvent "terr" "boom", [("k", JVal.jstr "v")]], emptyDB) := by
  have h := C6_error_event_isolation [] [okTool] errTool testCtx [] emptyDB
    emptyDB "boom" rfl rfl
  exact h

/-- C9: a tool whose effective-enabled state resolves to false is never
invoked (the run result does not depend on its `run` at all) and yields
exactly one `skipped` event in its registry position; a tool with no entry
in the enabled map defaults to enabled. -/
theorem C9_disabled_tool_never_invoked (pre post : List Tool)
    (tid nm ds : String) (ctx : ToolCtx) (em : List (String × Bool)) (db : DB) :
    (lookupEnabled em tid = false →
      ∀ runf : ToolCtx → DB → DB × Except String (List Event),
        run_tools (pre ++ ⟨tid, nm, ds, runf⟩ :: post) ctx em db =
          ((run_tools pre ctx em db).1 ++ skippedEvent tid ::
            (run_tools post ctx em (run_tools pre ctx em db).2).1,
           (run_tools post ctx em (run_tools pre ctx em db).2).2)) ∧
    (em.find? (fun p => p.1 = tid) = none → lookupEnabled em tid = true) := by
  constructor
  · intro hdis runf
    rw [run_tools_append]
    simp [run_tools, hdis]
  · intro hnone
    simp [lookupEnabled, hnone]

/-- Witness for C9: with the override map disabling it, the raising tool is
skipped (one `skipped` event, its `run` never executed); with an empty map
the lookup defaults to enabled. -/
theorem C9_disabled_tool_never_invoked_witness :
    run_tools [errTool] testCtx [("terr", false)] emptyDB =
      ([skippedEvent "terr"], emptyDB) ∧
    lookupEnabled [] "terr" = true := by
  constructor
  · have h := (C9_disabled_tool_never_invoked [] [] "terr" "Err" ""
      testCtx [("terr", false)] emptyDB).1 rfl errTool.run
    simpa [run_tools, errTool] using h
  · exact (C9_disabled_tool_never_invoked [] [] "terr" "Err" ""
      testCtx [] emptyDB).2 rfl

/-- C5 (code bug): for a session with 51 messages, the extraction context
built by `run_post_chat_pipeline` is the last 10 of the *earliest* 50
messages (`get_messages` sorts ascending before applying `LIMIT`), namely
messages 41-50 — not the 10 most recently created messages 42-51 that the
spec's "last N messages" requires. -/
theorem C5_recent_context_misses_latest :
    pipeline_recent_context c5msgs = (c5msgs.drop 40).take 10 ∧
    lastN MX1_RECENT_MESSAGES c5msgs = c5msgs.drop 41 ∧
    pipeline_recent_context c5msgs ≠ lastN MX1_RECENT_MESSAGES c5msgs := by
  refine ⟨by decide, by decide, by decide⟩

/-- Counterexample to C7 as stated: calling the cancel endpoint on an alert
already marked done performs the transition done→cancelled, which is not
among the claimed transitions active→done / active→cancelled (the update has
no guard on the current status). -/
theorem C7_counterexample :
    alertStatus c7db0 0 = some "active" ∧
    alertStatus c7db1 0 = some "done" ∧
    alertStatus c7db2 0 = some "cancelled" ∧
    ("done", "cancelled") ∉ claimedAlertTransitions := by
  refine ⟨by decide, by decide, by decide, by decide⟩

/-- C7 amended: under the exposed status-update operations (the done/cancel
endpoints), an alert that is not `active` never returns to `active` — every
operation either leaves an alert's status unchanged or sets it to `done` or
`cancelled` — but transitions between the two terminal states remain
possible. -/
theorem C7_never_back_to_active (db : List Alert) (aid : Nat)
    (ops : List AlertOp) (h : alertStatus db aid ≠ some "active") :
    alertStatus (applyAlertOps db ops) aid ≠ some "active" ∧
    ∀ (dbX : List Alert) (op : AlertOp),
      alertStatus (applyAlertOp dbX op) aid = alertStatus dbX aid ∨
      alertStatus (applyAlertOp dbX op) aid = some "done" ∨
      alertStatus (applyAlertOp dbX op) aid = some "cancelled" := by
  constructor
  · induction ops generalizing db with
    | nil => exact h
    | cons op ops ih =>
        simp only [applyAlertOps]
        apply ih
        rcases alertStatus_applyAlertOp db op aid with h1 | h1 | h1 <;>
          simp [h1, h]
  · intro dbX op
    exact alertStatus_applyAlertOp dbX op aid

/-- Witness for C7 amended: a done alert stays non-active through a
subsequent cancel operation. -/
theorem C7_never_back_to_active_witness :
    alertStatus (applyAlertOps c7db1 [AlertOp.markCancelled 0]) 0 ≠
      some "active" :=
  (C7_never_back_to_active c7db1 0 [AlertOp.markCancelled 0] (by decide)).1

/-- C2: every judge-evaluation failure — a transport error or timeout, a
reply with no JSON span, a span `json.loads` rejects, a span parsing to a
non-object, or a parsed object with a schema-violating verdict — makes
`run_judge` return verdict PASS (it is total: it never raises), and every
exception-class failure carries a `judge_failed:` diagnostic reason. -/
theorem C2_judge_failures_become_pass (backend : BackendOutcome)
    (parseJson : String → Except String JVal)
    (h : judgeFailureCase backend parseJson) :
    (run_judge true backend parseJson).verdict = "PASS" ∧
    (judgeHardFailure backend parseJson →
      ∃ e, (run_judge true backend parseJson).reason = "judge_failed:" ++ e) := by
  constructor
  · rcases h with hh | ⟨raw, span, fields, hb, hsp, hpo, hiv⟩
    · cases backend with
      | err m => rfl
      | ok raw =>
          rcases hh with hn | ⟨span, e, hsp, hpe⟩ | ⟨span, v, hsp, hpv, hne⟩
          · simp [run_judge, hn, judgeFallbackResult]
          · simp [run_judge, hsp, hpe, judgeFallbackResult]
          · cases v with
            | jobj fs => exact absurd rfl (hne fs)
            | jnull => simp [run_judge, hsp, hpv, judgeFallbackResult]
            | jbool b => simp [run_judge, hsp, hpv, judgeFallbackResult]
            | jnum q => simp [run_judge, hsp, hpv, judgeFallbackResult]
            | jstr s => simp [run_judge, hsp, hpv, judgeFallbackResult]
            | jarr xs => simp [run_judge, hsp, hpv, judgeFallbackResult]
    · subst hb
      simp only [run_judge, hsp, hpo, Bool.not_true, Bool.false_eq_true,
        if_false]
      unfold invalidVerdictField at hiv
      rcases hv : dictGet fields "verdict" (.jstr "PASS") with _ | b | q | s | xs | fs2 <;>
        rw [hv] at hiv <;> simp [hv]
      have hcond : ((s = "PASS" ∨ s = "REWRITE") ∨ s = "BLOCK" → s = "PASS") := by
        intro hc
        exact absurd (by tauto) hiv
      rw [if_pos hcond]
  · intro hh
    cases backend with
    | err m => exact ⟨m, rfl⟩
    | ok raw =>
        rcases hh with hn | ⟨span, e, hsp, hpe⟩ | ⟨span, v, hsp, hpv, hne⟩
        · exact ⟨"Judge did not return JSON: " ++ pyTake (pyStrip raw) 200,
            by simp [run_judge, hn, judgeFallbackResult]⟩
        · exact ⟨e, by simp [run_judge, hsp, hpe, judgeFallbackResult]⟩
        · refine ⟨pyAttrErr v, ?_⟩
          cases v with
          | jobj fs => exact absurd rfl (hne fs)
          | jnull => simp [run_judge, hsp, hpv, judgeFallbackResult]
          | jbool b => simp [run_judge, hsp, hpv, judgeFallbackResult]
          | jnum q => simp [run_judge, hsp, hpv, judgeFallbackResult]
          | jstr s => simp [run_judge, hsp, hpv, judgeFallbackResult]
          | jarr xs => simp [run_judge, hsp, hpv, judgeFallbackResult]

/-- Witness for C2: a transport failure, and a reply with no JSON object,
both produce verdict PASS. -/
theorem C2_judge_failures_become_pass_witness :
    (run_judge true (.err "timeout") parseFailOracle).verdict = "PASS" ∧
    (run_judge true (.ok "no json here") parseFailOracle).verdict = "PASS" :=
  ⟨(C2_judge_failures_become_pass (.err "timeout") parseFailOracle
      (Or.inl trivial)).1,
   (C2_judge_failures_become_pass (.ok "no json here") parseFailOracle
      (Or.inl (Or.inl (by decide)))).1⟩

/-- C3: the post-chat pipeline upserts SessionSummary exactly when the
persisted message count is a multiple of the cadence: off-cadence runs leave
the stored summary untouched whatever the extraction produced, and
on-cadence runs always store some summary (extracted text, deterministic
fallback, or the emergency summary on extraction failure). -/
theorem C3_summary_written_iff_cadence (db : DB) (sessionId : String)
    (mx1 : Except String (List AcceptedItem × SummaryPatch × String))
    (ids : Nat → Nat) :
    ((run_post_chat_pipeline db sessionId mx1 ids).2.summary_updated = true ↔
      count_messages db.messages % SUMMARY_CADENCE = 0) ∧
    (count_messages db.messages % SUMMARY_CADENCE ≠ 0 →
      (run_post_chat_pipeline db sessionId mx1 ids).1.summary = db.summary) ∧
    (count_messages db.messages % SUMMARY_CADENCE = 0 →
      ((run_post_chat_pipeline db sessionId mx1 ids).1.summary).isSome = true) := by
  cases mx1 with
  | error e =>
      by_cases hc : count_messages db.messages % SUMMARY_CADENCE = 0 <;>
        simp [run_post_chat_pipeline, hc]
  | ok v =>
      obtain ⟨items, patch, raw⟩ := v
      by_cases hc : count_messages db.messages % SUMMARY_CADENCE = 0
      · by_cases hs : pyStrip patch.summary = "" <;>
          simp [run_post_chat_pipeline, hc, hs]
      · simp [run_post_chat_pipeline, hc]

/-- Witness for C3: with one persisted message (count 1, off-cadence) a
failing extraction writes nothing; with zero messages (count 0, on-cadence)
the emergency summary is written. -/
theorem C3_summary_written_iff_cadence_witness :
    (run_post_chat_pipeline oneMsgDB "s" (Except.error "x")
      (fun _ => 0)).1.summary = oneMsgDB.summary ∧
    ((run_post_chat_pipeline emptyDB "s" (Except.error "x")
      (fun _ => 0)).1.summary).isSome = true :=
  ⟨(C3_summary_written_iff_cadence oneMsgDB "s" (Except.error "x")
      (fun _ => 0)).2.1 (by decide),
   (C3_summary_written_iff_cadence emptyDB "s" (Except.error "x")
      (fun _ => 0)).2.2 (by decide)⟩

theorem memTripleMatches_shared {sc k : String} {sid : Option String}
    {a b : MemRow} (ha : memTripleMatches sc k sid a = true)
    (hb : memTripleMatches sc k sid b = true) :
    a.scope = b.scope ∧ a.key = b.key ∧ a.sessionId = b.sessionId := by
  simp only [memTripleMatches, Bool.and_eq_true, decide_eq_true_eq] at ha hb
  exact ⟨ha.1.1.trans hb.1.1.symm, ha.1.2.trans hb.1.2.symm,
    ha.2.trans hb.2.symm⟩

theorem countP_triple_le_one (sc k : String) (sid : Option String)
    (db : List MemRow)
    (hinv : db.Pairwise (fun a b =>
      ¬ (a.scope = b.scope ∧ a.key = b.key ∧ a.sessionId = b.sessionId))) :
    db.countP (memTripleMatches sc k sid) ≤ 1 := by
  induction db with
  | nil => simp
  | cons a rest ih =>
      rw [List.pairwise_cons] at hinv
      obtain ⟨hhead, htail⟩ := hinv
      by_cases hma : memTripleMatches sc k sid a = true
      · have hzero : rest.countP (memTripleMatches sc k sid) = 0 := by
          rw [List.countP_eq_zero]
          intro b hb hmb
          exact hhead b hb (memTripleMatches_shared hma hmb)
        simp [List.countP_cons, hma, hzero]
      · simpa [List.countP_cons, hma] using ih htail

theorem eq_of_both_match {sc k : String} {sid : Option String}
    {db : List MemRow}
    (hinv : db.Pairwise (fun a b =>
      ¬ (a.scope = b.scope ∧ a.key = b.key ∧ a.sessionId = b.sessionId)))
    {r1 r2 : MemRow} (h1 : r1 ∈ db) (h2 : r2 ∈ db)
    (hm1 : memTripleMatches sc k sid r1 = true)
    (hm2 : memTripleMatches sc k sid r2 = true) : r1 = r2 := by
  induction db with
  | nil => cases h1
  | cons a rest ih =>
      rw [List.pairwise_cons] at hinv
      obtain ⟨hhead, htail⟩ := hinv
      rcases List.mem_cons.mp h1 with e1 | m1 <;>
        rcases List.mem_cons.mp h2 with e2 | m2
      · exact e1.trans e2.symm
      · subst e1
        exact ((hhead r2 m2) (memTripleMatches_shared hm1 hm2)).elim
      · subst e2
        exact ((hhead r1 m1) (memTripleMatches_shared hm2 hm1)).elim
      · exact ih htail m1 m2

theorem upsert_memory_item_spec (db : List MemRow) (scope key value : String)
    (confidence : ℚ) (sessionId : Option String) (src : Option Nat)
    (freshId : Nat) (hinv : MemInv db) (hfresh : ∀ r ∈ db, r.id ≠ freshId) :
    (upsert_memory_item db scope key value confidence sessionId src
        freshId).1.countP (memTripleMatches scope key sessionId) = 1 ∧
    (∀ r ∈ (upsert_memory_item db scope key value confidence sessionId src
        freshId).1,
      memTripleMatches scope key sessionId r = true →
        r.value = value ∧ r.confidence = confidence) ∧
    MemInv (upsert_memory_item db scope key value confidence sessionId src
        freshId).1 ∧
    (∀ r ∈ (upsert_memory_item db scope key value confidence sessionId src
        freshId).1,
      r.id = freshId ∨ ∃ r0 ∈ db, r.id = r0.id) := by
  obtain ⟨hids, htriples⟩ := hinv
  unfold upsert_memory_item
  cases hf : db.find? (memTripleMatches scope key sessionId) with
  | none =>
      have hnone := List.find?_eq_none.mp hf
      simp only
      refine ⟨?_, ?_, ⟨?_, ?_⟩, ?_⟩
      · rw [List.countP_append, List.countP_eq_zero.mpr hnone]
        simp [memTripleMatches]
      · intro r hr hm
        rcases List.mem_append.mp hr with hrdb | hrnew
        · exact absurd hm (hnone r hrdb)
        · have he : r = ⟨freshId, scope, sessionId, key, value, confidence,
              src⟩ := by simpa using hrnew
          subst he
          exact ⟨rfl, rfl⟩
      · rw [List.pairwise_append]
        refine ⟨hids, by simp, ?_⟩
        intro a ha b hb
        have he : b = ⟨freshId, scope, sessionId, key, value, confidence,
            src⟩ := by simpa using hb
        subst he
        exact hfresh a ha
      · rw [List.pairwise_append]
        refine ⟨htriples, by simp, ?_⟩
        intro a ha b hb hshare
        have he : b = ⟨freshId, scope, sessionId, key, value, confidence,
            src⟩ := by simpa using hb
        subst he
        apply hnone a ha
        simp only [memTripleMatches, Bool.and_eq_true, decide_eq_true_eq]
        exact ⟨⟨hshare.1, hshare.2.1⟩, hshare.2.2⟩
      · intro r hr
        rcases List.mem_append.mp hr with hrdb | hrnew
        · exact Or.inr ⟨r, hrdb, rfl⟩
        · have he : r = ⟨freshId, scope, sessionId, key, value, confidence,
              src⟩ := by simpa using hrnew
          subst he
          exact Or.inl rfl
  | some r0 =>
      have hp0 : memTripleMatches scope key sessionId r0 = true :=
        List.find?_some hf
      have hm0 : r0 ∈ db := List.mem_of_find?_eq_some hf
      simp only
      have hfid : ∀ r : MemRow,
          ((if r.id = r0.id then
            { r with value := value, confidence := confidence,
                     sourceMessageId := src } else r) : MemRow).id = r.id := by
        intro r
        by_cases h : r.id = r0.id <;> simp [h]
      have hfields : ∀ r : MemRow,
          ((if r.id = r0.id then
            { r with value := value, confidence := confidence,
                     sourceMessageId := src } else r) : MemRow).scope = r.scope ∧
          ((if r.id = r0.id then
            { r with value := value, confidence := confidence,
                     sourceMessageId := src } else r) : MemRow).key = r.key ∧
          ((if r.id = r0.id then
            { r with value := value, confidence := confidence,
                     sourceMessageId := src } else r) : MemRow).sessionId =
            r.sessionId := by
        intro r
        by_cases h : r.id = r0.id <;> simp [h]
      have hpres : ∀ r : MemRow,
          memTripleMatches scope key sessionId
            (if r.id = r0.id then
              { r with value := value, confidence := confidence,
                       sourceMessageId := src } else r) =
            memTripleMatches scope key sessionId r := by
        intro r
        simp only [memTripleMatches, (hfields r).1, (hfields r).2.1,
          (hfields r).2.2]
      refine ⟨?_, ?_, ⟨?_, ?_⟩, ?_⟩
      · rw [List.countP_map]
        have hcomp : db.countP
            ((memTripleMatches scope key sessionId) ∘ fun r =>
              if r.id = r0.id then
                { r with value := value, confidence := confidence,
                         sourceMessageId := src } else r) =
            db.countP (memTripleMatches scope key sessionId) := by
          apply List.countP_congr
          intro x hx
          simp only [Function.comp]
          rw [hpres x]
        rw [hcomp]
        have hle := countP_triple_le_one scope key sessionId db htriples
        have hpos : 0 < db.countP (memTripleMatches scope key sessionId) :=
          List.countP_pos_iff.mpr ⟨r0, hm0, hp0⟩
        omega
      · intro r hr hm
        rcases List.mem_map.mp hr with ⟨r1, hr1, he⟩
        subst he
        rw [hpres r1] at hm
        have : r1 = r0 := eq_of_both_match htriples hr1 hm0 hm hp0
        subst this
        simp
      · rw [List.pairwise_map]
        apply List.Pairwise.imp _ hids
        intro a b h
        simpa [hfid] using h
      · rw [List.pairwise_map]
        apply List.Pairwise.imp _ htriples
        intro a b h
        simpa [(hfields a).1, (hfields a).2.1, (hfields a).2.2,
          (hfields b).1, (hfields b).2.1, (hfields b).2.2] using h
      · intro r hr
        rcases List.mem_map.mp hr with ⟨r1, hr1, he⟩
        subst he
        exact Or.inr ⟨r1, hr1, hfid r1⟩

/-- C4: starting from a table satisfying the one-row-per-triple invariant,
two upserts with the same (scope, session_id, key) and fresh uuids leave
exactly one row for that triple, carrying the later call's value and
confidence, and the invariant (no duplicate rows per triple, unique ids) is
preserved. -/
theorem C4_upsert_keeps_one_row_latest_value (db : List MemRow)
    (scope key v1 v2 : String) (c1 c2 : ℚ) (sessionId : Option String)
    (id1 id2 : Nat) (hinv : MemInv db)
    (hf1 : ∀ r ∈ db, r.id ≠ id1) (hf2 : ∀ r ∈ db, r.id ≠ id2)
    (h12 : id1 ≠ id2) :
    (upsertTwice db scope key v1 v2 c1 c2 sessionId id1 id2).countP
        (memTripleMatches scope key sessionId) = 1 ∧
    (∀ r ∈ upsertTwice db scope key v1 v2 c1 c2 sessionId id1 id2,
      memTripleMatches scope key sessionId r = true →
        r.value = v2 ∧ r.confidence = c2) ∧
    MemInv (upsertTwice db scope key v1 v2 c1 c2 sessionId id1 id2) := by
  have s1 := upsert_memory_item_spec db scope key v1 c1 sessionId none id1
    hinv hf1
  have hfresh2 : ∀ r ∈ (upsert_memory_item db scope key v1 c1 sessionId none
      id1).1, r.id ≠ id2 := by
    intro r hr
    rcases s1.2.2.2 r hr with h | ⟨r0, hr0, he⟩
    · rw [h]; exact h12
    · rw [he]; exact hf2 r0 hr0
  have s2 := upsert_memory_item_spec
    (upsert_memory_item db scope key v1 c1 sessionId none id1).1
    scope key v2 c2 sessionId none id2 s1.2.2.1 hfresh2
  exact ⟨s2.1, s2.2.1, s2.2.2.1⟩

/-- Witness for C4: two upserts of the key `food` into an empty table leave
exactly one matching row. -/
theorem C4_upsert_keeps_one_row_latest_value_witness :
    (upsertTwice [] "session" "food" "pizza" "sushi" 1 1 (some "s") 0 1).countP
      (memTripleMatches "session" "food" (some "s")) = 1 :=
  (C4_upsert_keeps_one_row_latest_value [] "session" "food" "pizza" "sushi"
    1 1 (some "s") 0 1 ⟨List.Pairwise.nil, List.Pairwise.nil⟩
    (by simp) (by simp) (by decide)).1

theorem acceptItem_valid (sc k v : String) (q threshold : ℚ)
    (scopes : List String) (hsc : sc ∈ scopes) (hk1 : 1 ≤ k.length)
    (hk64 : k.length ≤ 64) (hkc : k.toList.all isMx1KeyChar = true)
    (hv1 : 1 ≤ v.length) (hv400 : v.length ≤ 400) :
    acceptItem threshold scopes (mx1Item sc k v q) =
      if clamp01 q < threshold then none
      else some ⟨sc, k, pyStrip v, clamp01 q⟩ := by
  have h1 : dictGet [("scope", JVal.jstr sc), ("key", JVal.jstr k),
      ("value", JVal.jstr v), ("confidence", JVal.jnum q)] "scope" .jnull =
      JVal.jstr sc := rfl
  have h2 : dictGet [("scope", JVal.jstr sc), ("key", JVal.jstr k),
      ("value", JVal.jstr v), ("confidence", JVal.jnum q)] "key" .jnull =
      JVal.jstr k := rfl
  have h3 : dictGet [("scope", JVal.jstr sc), ("key", JVal.jstr k),
      ("value", JVal.jstr v), ("confidence", JVal.jnum q)] "value" .jnull =
      JVal.jstr v := rfl
  have h4 : dictGet [("scope", JVal.jstr sc), ("key", JVal.jstr k),
      ("value", JVal.jstr v), ("confidence", JVal.jnum q)] "confidence"
      (.jnum 0) = JVal.jnum q := rfl
  simp only [mx1Item, acceptItem, h1, h2, h3, h4]
  rw [if_pos hsc, if_pos ⟨hk1, hk64⟩, if_pos hkc, if_pos ⟨hv1, hv400⟩]
  rfl

/-- Counterexample to C8 as stated: a sixth valid candidate with clamped
confidence 0.9 ≥ threshold 0.8 is nevertheless dropped, because
`validate_mx1_output` considers at most the first 5 candidates. -/
theorem C8_counterexample :
    (∀ r ∈ (validate_mx1_output c8SixItems mx1Threshold
        ["global", "session"]).1, r.key ≠ "k5") ∧
    ¬ (clamp01 conf090 < mx1Threshold) := by
  refine ⟨by decide, by decide⟩

/-- C8 amended: among the first five candidates considered (the hard cap of
`validate_mx1_output`), a candidate with valid scope, key and value and a
numeric confidence is dropped if and only if its clamped confidence is
strictly below the threshold; candidates beyond the cap are dropped
regardless of confidence. -/
theorem C8_threshold_boundary_within_cap (pre post : List JVal)
    (sc k v : String) (q threshold : ℚ) (scopes : List String)
    (hpre : pre.length < 5) (hsc : sc ∈ scopes)
    (hk1 : 1 ≤ k.length) (hk64 : k.length ≤ 64)
    (hkc : k.toList.all isMx1KeyChar = true)
    (hv1 : 1 ≤ v.length) (hv400 : v.length ≤ 400) :
    (validate_mx1_output
        [("items", .jarr (pre ++ mx1Item sc k v q :: post))]
        threshold scopes).1 =
      pre.filterMap (acceptItem threshold scopes) ++
      (if clamp01 q < threshold then []
       else [⟨sc, k, pyStrip v, clamp01 q⟩]) ++
      (post.take (4 - pre.length)).filterMap (acceptItem threshold scopes) := by
  have hlook : dictGet
      [("items", JVal.jarr (pre ++ mx1Item sc k v q :: post))] "items"
      (.jarr []) = JVal.jarr (pre ++ mx1Item sc k v q :: post) := rfl
  have htake : (pre ++ mx1Item sc k v q :: post).take 5 =
      pre ++ mx1Item sc k v q :: post.take (4 - pre.length) := by
    rw [List.take_append_eq_append_take,
      List.take_of_length_le (Nat.le_of_lt hpre)]
    have h5 : 5 - pre.length = (4 - pre.length) + 1 := by omega
    rw [h5, List.take_succ_cons]
  have hitem := acceptItem_valid sc k v q threshold scopes hsc hk1 hk64 hkc
    hv1 hv400
  simp only [validate_mx1_output, hlook, htake, List.filterMap_append,
    List.filterMap_cons, hitem]
  by_cases hq : clamp01 q < threshold
  · simp [hq]
  · simp [hq]

/-- Witness for C8 amended at the spec's boundary: under threshold 0.8 a
single otherwise-valid candidate with confidence 0.79 is dropped and one
with confidence 0.80 is kept. -/
theorem C8_threshold_boundary_within_cap_witness :
    (validate_mx1_output
        [("items", JVal.jarr [mx1Item "session" "food" "pizza" conf079])]
        mx1Threshold ["global", "session"]).1 = [] ∧
    (validate_mx1_output
        [("items", JVal.jarr [mx1Item "session" "food" "pizza" conf080])]
        mx1Threshold ["global", "session"]).1 =
      [⟨"session", "food", "pizza", conf080⟩] := by
  constructor
  · have h := C8_threshold_boundary_within_cap [] [] "session" "food" "pizza"
      conf079 mx1Threshold ["global", "session"] (by decide) (by decide)
      (by decide) (by decide) (by decide) (by decide) (by decide)
    simp only [List.nil_append, List.filterMap_nil, List.take_nil,
      List.append_nil] at h
    rw [h]
    decide
  · have h := C8_threshold_boundary_within_cap [] [] "session" "food" "pizza"
      conf080 mx1Threshold ["global", "session"] (by decide) (by decide)
      (by decide) (by decide) (by decide) (by decide) (by decide)
    simp only [List.nil_append, List.filterMap_nil, List.take_nil,
      List.append_nil] at h
    rw [h]
    decide

theorem run_post_chat_pipeline_messages (db : DB) (sessionId : String)
    (mx1 : Except String (List AcceptedItem × SummaryPatch × String))
    (ids : Nat → Nat) :
    (run_post_chat_pipeline db sessionId mx1 ids).1.messages = db.messages := by
  cases mx1 with
  | error e =>
      by_cases hc : count_messages db.messages % SUMMARY_CADENCE = 0 <;>
        simp [run_post_chat_pipeline, hc]
  | ok v =>
      obtain ⟨items, patch, raw⟩ := v
      by_cases hc : count_messages db.messages % SUMMARY_CADENCE = 0
      · by_cases hs : pyStrip patch.summary = "" <;>
          simp [run_post_chat_pipeline, hc, hs]
      · simp [run_post_chat_pipeline, hc]

theorem alertsToolRun_messages (cands : Except String (List AlertCand))
    (ids : Nat → Nat) (ctx : ToolCtx) (db : DB) :
    ((alertsToolRun cands ids ctx db).1).messages = db.messages := by
  cases cands with
  | error e => rfl
  | ok l =>
      simp only [alertsToolRun]
      by_cases hl : l.isEmpty
      · simp [hl]
      · by_cases hc :
          (execute_alert_creation db.alerts l (some ctx.session_id)
            "session" ids).2.isEmpty <;>
          simp [hl, hc]

theorem run_tools_alerts_messages (cands : Except String (List AlertCand))
    (alertIds : Nat → Nat) (ctx : ToolCtx) (em : List (String × Bool))
    (db : DB) :
    (run_tools (build_tools_registry cands alertIds) ctx em db).2.messages =
      db.messages := by
  simp only [build_tools_registry, run_tools]
  by_cases he : lookupEnabled em (AlertsTool cands alertIds).id
  · simp only [he, if_pos]
    have hm := alertsToolRun_messages cands alertIds ctx db
    rcases hr : (AlertsTool cands alertIds).run ctx db with ⟨db1, res⟩
    have hb : alertsToolRun cands alertIds ctx db = (db1, res) := hr
    rw [hb] at hm
    cases res <;> simpa [run_tools] using hm
  · simp [he, run_tools]

/-- C10: a completed turn appends exactly two rows to the session's stored
conversation — the user message and the final assistant reply.  Rejected
drafts and judge feedback from the retry loop never reach the messages
table (they live only in the loop's in-memory prompt history), and neither
the post-chat pipeline nor the tool phase writes messages. -/
theorem C10_turn_persists_exactly_two_messages (db : DB) (sessionId : String)
    (persona : Persona) (userMsg : String) (drafts : Nat → String)
    (judge : Nat → JudgeOut)
    (mx1 : Except String (List AcceptedItem × SummaryPatch × String))
    (memIds : Nat → Nat) (alertCands : Except String (List AlertCand))
    (alertIds : Nat → Nat) (enabledMap : List (String × Bool)) :
    (chat_send_api db sessionId persona userMsg drafts judge mx1 memIds
        alertCands alertIds enabledMap).1.messages =
      db.messages ++ [⟨"user", userMsg⟩,
        ⟨"assistant", (chat_send_loop drafts judge).final_text⟩] := by
  simp only [chat_send_api]
  rw [run_tools_alerts_messages, run_post_chat_pipeline_messages]
  simp [add_message]

end CompanionOS
